import Mathlib

/-!
Verification of the `continuum` dataset adapters
(`src/continuum/datasets/base.py`) against their specification.

The file shallowly embeds the data model of the three adapter variants:
the abstract Descriptor contract `_ContinuumDataset`, the Wrapped-Library
Adapter `PyTorchDataset`, the In-Memory Adapter `InMemoryDataset`, and the
Directory-Tree Adapter `ImageFolderDataset`.  NumPy arrays are modelled as
Lean lists; a fixed-width `S255` byte field is modelled as a list of
characters truncated at 255; `np.int16` storage wraps modulo `2^16` into
the signed range.  `None` task ids become `Option.none`.
-/

namespace Continuum

/-- The uniform `(x, y, t)` triple returned by every adapter:
inputs, targets, and the optional per-sample task ids. -/
structure Triple (α β γ : Type) where
  x : List α
  y : List β
  t : Option (List γ)
deriving DecidableEq, Repr

/-! ## Descriptor contract (`_ContinuumDataset`) -/

namespace ContinuumDataset

/-- `_ContinuumDataset.class_remapping`: the source returns `class_ids`
unchanged (`return class_ids`). -/
def class_remapping (class_ids : List Int) : List Int :=
  class_ids

/-- `_ContinuumDataset.data_type`: the property returns the literal
`"image_array"`. -/
def data_type : String :=
  "image_array"

/-- `_ContinuumDataset.class_order`: the property returns `None`. -/
def class_order : Option (List Int) :=
  none

/-- `_ContinuumDataset.need_class_remapping`: the property returns `False`. -/
def need_class_remapping : Bool :=
  false

end ContinuumDataset

/-! ## Wrapped-Library Adapter (`PyTorchDataset`) -/

/-- The external torchvision dataset object: it exposes `.data` and
`.targets`, consumed by `PyTorchDataset.get_data`. -/
structure TorchVisionData (α β : Type) where
  data : List α
  targets : List β
deriving DecidableEq, Repr

/-- `PyTorchDataset` instance state after `__init__`: `data_path` and
`download` from the base constructor, the `train` flag, and the external
`dataset` object built by the `dataset_type` factory. -/
structure PyTorchDataset (α β : Type) where
  data_path : String
  download : Bool
  train : Bool
  dataset : TorchVisionData α β
deriving DecidableEq, Repr

namespace PyTorchDataset

/-- `PyTorchDataset.__init__`: stores the arguments and runs
`self.dataset = self.dataset_type(self.data_path, download=self.download,
train=self.train)`.  The `dataset_type` factory is the external
collaborator, passed as a function. -/
def init (dataset_type : String → Bool → Bool → TorchVisionData α β)
    (data_path : String) (download : Bool) (train : Bool) :
    PyTorchDataset α β :=
  { data_path := data_path
    download := download
    train := train
    dataset := dataset_type data_path download train }

/-- `PyTorchDataset.get_data`: `x, y = np.array(self.dataset.data),
np.array(self.dataset.targets); return x, y, None`.  The `np.array`
conversion is the identity on our list model. -/
def get_data (ds : PyTorchDataset α β) : Triple α β Unit :=
  { x := ds.dataset.data
    y := ds.dataset.targets
    t := none }

/-- State-passing view of a `get_data` retrieval: the method only reads
the instance, so the state it leaves behind is the instance itself. -/
def get_data_run (ds : PyTorchDataset α β) :
    Triple α β Unit × PyTorchDataset α β :=
  (ds.get_data, ds)

end PyTorchDataset

/-- Modelled from the spec: "Operation `get_data(train: bool) -> (x, y, t)`
... returns the full triple for the requested split."  For the
Wrapped-Library Adapter the split's data comes from the external factory,
so the requested split's triple is the one the factory yields for the
requested `train` value. -/
def pytorch_get_data_requested (dataset_type : String → Bool → Bool → TorchVisionData α β)
    (data_path : String) (download : Bool) (train : Bool) :
    Triple α β Unit :=
  let d := dataset_type data_path download train
  { x := d.data, y := d.targets, t := none }

/-- A concrete external factory whose train and test splits differ. -/
def twoSplitFactory : String → Bool → Bool → TorchVisionData Nat Nat :=
  fun _ _ train => if train then ⟨[0], [0]⟩ else ⟨[1], [1]⟩

/-! ## In-Memory Adapter (`InMemoryDataset`) -/

/-- `InMemoryDataset` instance state: the stored `(x_, y_, t_)` triple, the
mutable `_data_type` tag, the informational `train` label, and the base
constructor's `data_path`/`download` fields. -/
structure InMemoryDataset (α β γ : Type) where
  data : Triple α β γ
  _data_type : String
  train : String
  data_path : String
  download : Bool
deriving DecidableEq, Repr

namespace InMemoryDataset

/-- `InMemoryDataset.__init__(x_, y_, data_type="image_array", t_=None,
train='train', **kwargs)`: stores `self.data = (x_, y_, t_)` and
`self._data_type = data_type`, then the base constructor stores
`data_path` (default `""`) and `download` (default `True`); the
acquisition hook `_download` is a no-op. -/
def init (x_ : List α) (y_ : List β) (dtype : String) (t_ : Option (List γ))
    (train : String) (data_path : String) (download : Bool) :
    InMemoryDataset α β γ :=
  { data := { x := x_, y := y_, t := t_ }
    _data_type := dtype
    train := train
    data_path := data_path
    download := download }

/-- `InMemoryDataset.get_data`: `return self.data`. -/
def get_data (ds : InMemoryDataset α β γ) : Triple α β γ :=
  ds.data

/-- The `data_type` property getter: `return self._data_type`. -/
def data_type (ds : InMemoryDataset α β γ) : String :=
  ds._data_type

/-- The `data_type` property setter: `self._data_type = data_type`,
leaving every other field of the instance untouched. -/
def set_data_type (ds : InMemoryDataset α β γ) (v : String) :
    InMemoryDataset α β γ :=
  { ds with _data_type := v }

/-- State-passing view of a `get_data` retrieval: the method only reads
`self.data`, so the state it leaves behind is the instance itself. -/
def get_data_run (ds : InMemoryDataset α β γ) :
    Triple α β γ × InMemoryDataset α β γ :=
  (ds.get_data, ds)

end InMemoryDataset

/-! ## Directory-Tree Adapter (`ImageFolderDataset`) -/

/-- A signed 16-bit wraparound, the semantics of storing an integer into a
NumPy `int16` array cell. -/
def toInt16 (n : Int) : Int :=
  (n + 2 ^ 15) % 2 ^ 16 - 2 ^ 15

/-- Assignment of a path string into a NumPy `S255` fixed-width cell keeps
only the first 255 characters, silently. -/
def truncS255 (s : String) : List Char :=
  s.data.take 255

/-- `ImageFolderDataset` instance state: the `folder` root, the
informational `train` label, the `download` flag, and `dataset.imgs` –
the `(path, label)` pairs produced by the `torchdata.ImageFolder` scan. -/
structure ImageFolderDataset where
  folder : String
  train : String
  download : Bool
  imgs : List (String × Int)
deriving DecidableEq, Repr

namespace ImageFolderDataset

/-- `ImageFolderDataset.__init__(folder, train, download=True)`: stores
the arguments, runs the no-op `_download`, and scans the folder with
`torchdata.ImageFolder(folder)`.  The scanning utility is the external
collaborator, passed as a function from the root path to the discovered
`(path, label)` pairs. -/
def init (scan : String → List (String × Int)) (folder train : String)
    (download : Bool) : ImageFolderDataset :=
  { folder := folder
    train := train
    download := download
    imgs := scan folder }

/-- `ImageFolderDataset._format(raw_data)`: fills `x = np.empty(n,
dtype="S255")` and `y = np.empty(n, dtype=np.int16)` by the loop
`x[i] = path; y[i] = target`, and returns `(x, y, None)`. -/
def format (raw_data : List (String × Int)) : Triple (List Char) Int Unit :=
  { x := raw_data.map fun p => truncS255 p.1
    y := raw_data.map fun p => toInt16 p.2
    t := none }

/-- `ImageFolderDataset.get_data`: `return self._format(self.dataset.imgs)`. -/
def get_data (ds : ImageFolderDataset) : Triple (List Char) Int Unit :=
  format ds.imgs

/-- `ImageFolderDataset.data_type`: the property returns the literal
`"image_path"`. -/
def data_type (_ : ImageFolderDataset) : String :=
  "image_path"

/-- State-passing view of a `get_data` retrieval: the method recomputes
`_format` from the stored `imgs` and mutates nothing. -/
def get_data_run (ds : ImageFolderDataset) :
    Triple (List Char) Int Unit × ImageFolderDataset :=
  (ds.get_data, ds)

end ImageFolderDataset

end Continuum

namespace Continuum

/-! ## Claims -/

/-- C1: For every adapter variant, the triple returned by `get_data` has
equal-length components: `len(x) == len(y)`, and when `t` is present,
`len(t) == len(x)`.  For the Directory-Tree Adapter this holds for every
scanned pair list (with `t` always absent); for the In-Memory Adapter it
holds under the precondition that the constructor was given `x_`, `y_`
(and `t_` when present) of equal length; for the Wrapped-Library Adapter
it holds (with `t` always absent) under the precondition that the wrapped
external object's `data` and `targets` have equal length. -/
theorem C1_get_data_equal_lengths :
    (∀ raw : List (String × Int),
        ((ImageFolderDataset.format raw).x).length
            = ((ImageFolderDataset.format raw).y).length
        ∧ (ImageFolderDataset.format raw).t = none)
    ∧ (∀ (α β γ : Type) (x_ : List α) (y_ : List β) (t_ : Option (List γ))
          (dt tr dp : String) (dl : Bool),
        x_.length = y_.length →
        (∀ ts, t_ = some ts → ts.length = x_.length) →
        ((InMemoryDataset.init x_ y_ dt t_ tr dp dl).get_data.x.length
            = (InMemoryDataset.init x_ y_ dt t_ tr dp dl).get_data.y.length
         ∧ ∀ ts, (InMemoryDataset.init x_ y_ dt t_ tr dp dl).get_data.t = some ts →
             ts.length = (InMemoryDataset.init x_ y_ dt t_ tr dp dl).get_data.x.length))
    ∧ (∀ (α β : Type) (ds : PyTorchDataset α β),
        ds.dataset.data.length = ds.dataset.targets.length →
        (ds.get_data.x.length = ds.get_data.y.length
         ∧ ∀ ts, ds.get_data.t = some ts → ts.length = ds.get_data.x.length)) := by
  refine ⟨?_, ?_, ?_⟩
  · intro raw
    exact ⟨by simp [ImageFolderDataset.format], rfl⟩
  · intro α β γ x_ y_ t_ dt tr dp dl hxy ht
    exact ⟨hxy, fun ts hts => ht ts hts⟩
  · intro α β ds h
    exact ⟨h, fun ts hts => nomatch hts⟩

/-- C1 witness: the In-Memory part of C1 at `x_ = [1, 2]`, `y_ = [5, 6]`,
`t_ = some [0, 0]`, where both length preconditions hold, and the
Wrapped-Library part at a concrete instance built from `twoSplitFactory`,
whose wrapped `data` and `targets` have equal length. -/
theorem C1_get_data_equal_lengths_witness :
    (([1, 2] : List Nat).length = ([5, 6] : List Nat).length)
    ∧ (∀ ts, (some [0, 0] : Option (List Nat)) = some ts →
        ts.length = ([1, 2] : List Nat).length)
    ∧ ((InMemoryDataset.init ([1, 2] : List Nat) ([5, 6] : List Nat)
          "image_array" (some [0, 0]) "train" "" true).get_data.x.length
        = (InMemoryDataset.init ([1, 2] : List Nat) ([5, 6] : List Nat)
          "image_array" (some [0, 0]) "train" "" true).get_data.y.length
       ∧ ∀ ts, (InMemoryDataset.init ([1, 2] : List Nat) ([5, 6] : List Nat)
          "image_array" (some [0, 0]) "train" "" true).get_data.t = some ts →
           ts.length = (InMemoryDataset.init ([1, 2] : List Nat) ([5, 6] : List Nat)
          "image_array" (some [0, 0]) "train" "" true).get_data.x.length)
    ∧ ((PyTorchDataset.init twoSplitFactory "" true true).dataset.data.length
        = (PyTorchDataset.init twoSplitFactory "" true true).dataset.targets.length)
    ∧ ((PyTorchDataset.init twoSplitFactory "" true true).get_data.x.length
        = (PyTorchDataset.init twoSplitFactory "" true true).get_data.y.length
       ∧ ∀ ts, (PyTorchDataset.init twoSplitFactory "" true true).get_data.t = some ts →
           ts.length = (PyTorchDataset.init twoSplitFactory "" true true).get_data.x.length) :=
  ⟨rfl, fun ts hts => by cases hts; rfl,
   C1_get_data_equal_lengths.2.1 Nat Nat Nat [1, 2] [5, 6] (some [0, 0])
     "image_array" "train" "" true rfl (fun ts hts => by cases hts; rfl),
   rfl,
   C1_get_data_equal_lengths.2.2 Nat Nat
     (PyTorchDataset.init twoSplitFactory "" true true) rfl⟩

/-- C2: the In-Memory Adapter's `get_data` returns exactly the `(x_, y_, t_)`
triple passed to the constructor, unchanged; in particular constructing with
`x_ = [1, 2, 3]`, `y_ = [0, 1, 0]` and no `t_` yields
`([1, 2, 3], [0, 1, 0], None)`. -/
theorem C2_in_memory_round_trip :
    (∀ (α β γ : Type) (x_ : List α) (y_ : List β) (t_ : Option (List γ))
        (dt tr dp : String) (dl : Bool),
        (InMemoryDataset.init x_ y_ dt t_ tr dp dl).get_data = ⟨x_, y_, t_⟩)
    ∧ (InMemoryDataset.init ([1, 2, 3] : List Nat) ([0, 1, 0] : List Nat)
        "image_array" (none : Option (List Nat)) "train" "" true).get_data
        = ⟨[1, 2, 3], [0, 1, 0], none⟩ :=
  ⟨fun _ _ _ _ _ _ _ _ _ _ => rfl, rfl⟩

/-- C3: each `x` entry produced by the Directory-Tree Adapter's formatting
step is the path truncated to its first 255 characters, with no length
check; a path of length 300 is silently truncated to its first 255
characters. -/
theorem C3_path_truncated_to_255 :
    (∀ (raw : List (String × Int)) (i : Nat),
        ((ImageFolderDataset.format raw).x)[i]?
          = (raw[i]?).map fun p => p.1.data.take 255)
    ∧ (String.mk (List.replicate 300 'a')).length = 300
    ∧ (ImageFolderDataset.format [(String.mk (List.replicate 300 'a'), 0)]).x
        = [List.replicate 255 'a']
    ∧ (List.replicate 255 'a').length = 255 := by
  refine ⟨fun raw i => ?_, ?_, ?_, List.length_replicate 255 'a'⟩
  · simp [ImageFolderDataset.format, truncS255]
  · show (List.replicate 300 'a').length = 300
    exact List.length_replicate 300 'a'
  · show [truncS255 (String.mk (List.replicate 300 'a'))] = _
    have h : truncS255 (String.mk (List.replicate 300 'a'))
        = List.replicate 255 'a' := by
      show (List.replicate 300 'a').take 255 = List.replicate 255 'a'
      rw [List.take_replicate]
      norm_num
    rw [h]

/-- C4 counterexample: the claim says `get_data(train)` returns the triple
for the requested split for either boolean value of `train`.  With an
external factory whose splits differ, an instance built with
`train = True` still yields its construction-time split when the test
split (`train = False`) is requested, so the claim is false. -/
theorem C4_counterexample :
    ¬ ((PyTorchDataset.init twoSplitFactory "" true true).get_data
        = pytorch_get_data_requested twoSplitFactory "" true false) := by
  decide

/-- C4 amended: every concrete adapter variant provides a `get_data`
operation returning the full `(x, y, t)` triple, but the operation takes
no `train` argument: the split is the one fixed at construction, so the
returned triple cannot vary with a requested split. -/
theorem C4_amended_get_data_fixed_split :
    (∀ (α β : Type) (f : String → Bool → Bool → TorchVisionData α β)
        (dp : String) (dl ctrain : Bool),
        (PyTorchDataset.init f dp dl ctrain).get_data
          = pytorch_get_data_requested f dp dl ctrain)
    ∧ (∀ (α β γ : Type) (ds : InMemoryDataset α β γ),
        ds.get_data = ⟨ds.data.x, ds.data.y, ds.data.t⟩)
    ∧ (∀ ds : ImageFolderDataset,
        ds.get_data = ImageFolderDataset.format ds.imgs) :=
  ⟨fun _ _ _ _ _ _ => rfl, fun _ _ _ _ => rfl, fun _ => rfl⟩

/-- C5: `get_data` is deterministic and free of side effects: on every
adapter instance, running the retrieval twice in sequence yields equal
triples and leaves the instance state exactly as constructed. -/
theorem C5_get_data_deterministic :
    (∀ (α β γ : Type) (ds : InMemoryDataset α β γ),
        ds.get_data_run.2.get_data_run.1 = ds.get_data_run.1
        ∧ ds.get_data_run.2.get_data_run.2 = ds)
    ∧ (∀ ds : ImageFolderDataset,
        ds.get_data_run.2.get_data_run.1 = ds.get_data_run.1
        ∧ ds.get_data_run.2.get_data_run.2 = ds)
    ∧ (∀ (α β : Type) (ds : PyTorchDataset α β),
        ds.get_data_run.2.get_data_run.1 = ds.get_data_run.1
        ∧ ds.get_data_run.2.get_data_run.2 = ds) :=
  ⟨fun _ _ _ _ => ⟨rfl, rfl⟩, fun _ => ⟨rfl, rfl⟩, fun _ _ _ => ⟨rfl, rfl⟩⟩

/-- C6: for every wrapped external dataset object, the Wrapped-Library
Adapter's `get_data` returns a triple whose third element is `None`, the
first element being the inputs and the second the targets of the wrapped
dataset. -/
theorem C6_pytorch_no_task_ids :
    ∀ (α β : Type) (ds : PyTorchDataset α β),
      ds.get_data.t = none
      ∧ ds.get_data.x = ds.dataset.data
      ∧ ds.get_data.y = ds.dataset.targets :=
  fun _ _ _ => ⟨rfl, rfl, rfl⟩

/-- C7: on every In-Memory Adapter instance and every string `v`, assigning
`data_type = v` then reading `data_type` returns `v`, and the assignment
changes nothing else: `get_data` still returns the same triple. -/
theorem C7_data_type_setter_frame :
    ∀ (α β γ : Type) (ds : InMemoryDataset α β γ) (v : String),
      (ds.set_data_type v).data_type = v
      ∧ (ds.set_data_type v).get_data = ds.get_data :=
  fun _ _ _ _ _ => ⟨rfl, rfl⟩

/-- C8: the default `class_remapping` of the Descriptor contract is the
identity: every array of class ids is returned unchanged, e.g.
`class_remapping([3, 1, 2]) == [3, 1, 2]`. -/
theorem C8_class_remapping_identity :
    (∀ ids : List Int, ContinuumDataset.class_remapping ids = ids)
    ∧ ContinuumDataset.class_remapping [3, 1, 2] = [3, 1, 2] :=
  ⟨fun _ => rfl, rfl⟩

/-- C9: the Descriptor contract's `data_type` defaults to `"image_array"`,
while the Directory-Tree Adapter's `data_type` is `"image_path"` on every
instance. -/
theorem C9_data_type_values :
    ContinuumDataset.data_type = "image_array"
    ∧ ∀ ds : ImageFolderDataset, ds.data_type = "image_path" :=
  ⟨rfl, fun _ => rfl⟩

/-- C10: the Directory-Tree Adapter stores labels in a signed 16-bit array:
each `y` entry equals the label reduced modulo `2^16` and reinterpreted in
`[-32768, 32767]`, so a label like 40000 is stored as -25536 and not
preserved. -/
theorem C10_int16_label_wraparound :
    (∀ (raw : List (String × Int)) (i : Nat),
        ((ImageFolderDataset.format raw).y)[i]?
          = (raw[i]?).map fun p => (p.2 + 2 ^ 15) % 2 ^ 16 - 2 ^ 15)
    ∧ (ImageFolderDataset.format [("p", 40000)]).y = [(-25536 : Int)]
    ∧ (ImageFolderDataset.format [("p", 40000)]).y ≠ [(40000 : Int)] := by
  refine ⟨fun raw i => ?_, by decide, by decide⟩
  simp [ImageFolderDataset.format, toInt16]

end Continuum
